import Mathlib

/-!
Verification development for the gen-docs repository: a shallow embedding
of the File Writer (write-files.js), the Commit Replay Driver (the bash
script shipped alongside it), and the Prompt Invoker (gemini.js), with
theorems checking the repository's specification against the code.
-/

/-! ### Paths

JS strings are modelled as Lean `String`.  An absolute POSIX path is kept
as its list of components; `renderPath` renders it to the string Node
uses (`/a/b/c`), and `resolvePath` models `path.resolve(cwd, filename)`
for a process whose working directory is the component list `cwd`. -/

/-- One step of the normalisation `path.resolve` performs: `.` and empty
components are dropped, `..` removes the last component (and is ignored
at the root), anything else is appended. -/
def applyComp (acc : List String) (c : String) : List String :=
  if c = "" ∨ c = "." then acc
  else if c = ".." then acc.dropLast
  else acc ++ [c]

/-- Split a character list at every `/`, like the JS `split` method. -/
def splitSlashAux : List Char → List Char → List String
  | [], acc => [String.mk acc.reverse]
  | c :: rest, acc =>
    if c = '/' then String.mk acc.reverse :: splitSlashAux rest []
    else splitSlashAux rest (c :: acc)

/-- A path string's segments between `/` separators. -/
def splitSlash (s : String) : List String :=
  splitSlashAux s.data []

/-- Whether a POSIX path string is absolute: its first character is `/`. -/
def isAbsolute (s : String) : Bool :=
  s.data.head? = some '/'

/-- Model of Node `path.resolve(cwd, filename)`: an absolute `filename`
replaces the base, a relative one is resolved against `cwd`; the result
is the normalised component list of the absolute path. -/
def resolvePath (cwd : List String) (filename : String) : List String :=
  let base := if isAbsolute filename then [] else cwd
  (splitSlash filename).foldl applyComp base

/-- Render the tail of an absolute path: one `/` before each component. -/
def renderTail : List String → String
  | [] => ""
  | c :: rest => "/" ++ c ++ renderTail rest

/-- Render an absolute path's component list as the string Node uses
(`/a/b`; the filesystem root renders as `/`). -/
def renderPath (l : List String) : String :=
  if l = [] then "/" else renderTail l

/-- Model of the JS string method `s.startsWith(p)`: `p` is a literal
character-for-character leading substring of `s`. -/
def jsStartsWith (s p : String) : Bool :=
  decide (p.data <+: s.data)

/-- The specification's notion of path containment: the resolved path
lies inside the working directory, componentwise. -/
def insideDir (cwd p : List String) : Bool :=
  decide (cwd <+: p)

/-! ### File Writer (write-files.js) -/

/-- The parts of the filesystem the File Writer touches: files keyed by
absolute path components, plus the directories brought into existence by
`fs.mkdirSync`. -/
structure FS where
  files : List (List String × String)
  dirs : List (List String)
deriving DecidableEq

/-- `fs.existsSync` on a file path. -/
def fsExists (fs : FS) (p : List String) : Bool :=
  (fs.files.lookup p).isSome

/-- `fs.unlinkSync`. -/
def fsDelete (fs : FS) (p : List String) : FS :=
  { fs with files := fs.files.filter (fun kv => kv.1 != p) }

/-- `fs.writeFileSync` with string contents: overwrites any previous
entry at the same path. -/
def fsWrite (fs : FS) (p : List String) (c : String) : FS :=
  { fs with files := (p, c) :: fs.files.filter (fun kv => kv.1 != p) }

/-- `fs.mkdirSync(dir, {recursive: true})`: the directory and all its
ancestors come into existence. -/
def fsMkdirs (fs : FS) (d : List String) : FS :=
  { fs with dirs := ((List.range d.length).map (fun i => d.take (i + 1))) ++ fs.dirs }

/-- One record of a File Change Set, as parsed from the JSON input.
`new_content = some c` models a JSON string value; `new_content = none`
models a record whose `new_content` is absent or not a string, so that
in JS it is neither `=== ''` nor accepted by `fs.writeFileSync`. -/
structure Entry where
  filename : String
  new_content : Option String
deriving DecidableEq

/-- The message thrown by the path containment check of write-files.js,
with the `Error: ` label its catch block adds when printing. -/
def escapeMsg (fn : String) : String :=
  "Error: File path \"" ++ fn ++ "\" is outside the allowed directory."

/-- The message of the TypeError Node's `fs.writeFileSync` throws when
handed a non-string (raised by Node, not by this repository), again with
the `Error: ` label added by the catch block of write-files.js. -/
def writeTypeErrMsg : String :=
  "Error: The \"data\" argument must be of type string or an instance of Buffer, TypedArray, or DataView."

/-- One iteration of the `data.files.forEach` body of write-files.js:
the filesystem after the entry, the log lines printed for it, and the
error message if the iteration threw. -/
def processEntry (cwd : List String) (fs : FS) (e : Entry) :
    FS × List String × Option String :=
  let filePath := resolvePath cwd e.filename
  if ¬ jsStartsWith (renderPath filePath) (renderPath cwd) then
    (fs, [], some (escapeMsg e.filename))
  else if e.new_content = some "" then
    if fsExists fs filePath then
      (fsDelete fs filePath, ["Deleted empty file: " ++ e.filename], none)
    else
      (fs, [], none)
  else
    let fs1 := fsMkdirs fs filePath.dropLast
    match e.new_content with
    | some c => (fsWrite fs1 filePath c, ["Wrote file: " ++ e.filename], none)
    | none => (fs1, [], some writeTypeErrMsg)

/-- Outcome of a forEach run: final filesystem, log, pending error. -/
structure WriterOut where
  fs : FS
  log : List String
  err : Option String
deriving DecidableEq

/-- The `data.files.forEach(...)` loop: entries processed in order; a
thrown error aborts before the remaining entries. -/
def runEntries (cwd : List String) : List Entry → FS → WriterOut
  | [], fs => ⟨fs, [], none⟩
  | e :: rest, fs =>
    let step := processEntry cwd fs e
    match step.2.2 with
    | some m => ⟨step.1, step.2.1, some m⟩
    | none =>
      let r := runEntries cwd rest step.1
      ⟨r.fs, step.2.1 ++ r.log, r.err⟩

/-- Outcome of one whole File Writer invocation. -/
structure WriterResult where
  fs : FS
  log : List String
  err : Option String
  exitCode : Nat
deriving DecidableEq

/-- The `process.stdin.on(end)` handler of write-files.js, from a parsed
entry list onwards: runs the loop; a thrown error is printed with an
`Error: ` label and the process exits 1, otherwise it exits 0. -/
def runWriter (cwd : List String) (entries : List Entry) (fs : FS) : WriterResult :=
  let r := runEntries cwd entries fs
  ⟨r.fs, r.log, r.err, if r.err.isSome then 1 else 0⟩

/-! ### Commit Replay Driver (the bash script) -/

/-- Git state as the Commit Replay Driver sees it.  Commits are ids with
parent-id lists; `base` is the base branch's commit list oldest first
(`git rev-list --reverse`), `tracking` the `gen-commits` ref (none when
the branch does not exist), `dirty` whether `git status --porcelain`
printed anything, and `nextId` the id `git commit-tree` will give the
next created commit. -/
structure GitState where
  base : List Nat
  commits : List (Nat × List Nat)
  tracking : Option Nat
  dirty : Bool
  nextId : Nat
deriving DecidableEq

/-- `git rev-parse g^1`: the first parent of a commit. -/
def firstParent (s : GitState) (g : Nat) : Option Nat :=
  (s.commits.lookup g).bind List.head?

/-- The first entry of `git rev-list --reverse --ancestry-path c..tip`
on a linear base branch: the commit right after `c`, if any. -/
def nextAfter (c : Nat) : List Nat → Option Nat
  | [] => none
  | x :: rest => if x = c then rest.head? else nextAfter c rest

/-- Outcome of one driver run: the git state afterwards, the exit code,
whether the no-new-commits message was printed, and the id of the
generated commit if one was made. -/
structure DriverResult where
  state : GitState
  exitCode : Nat
  noopMsg : Bool
  madeCommit : Option Nat
deriving DecidableEq

/-- One run of the Commit Replay Driver.  `gen` is whether the external
generation command (llm-gen-docs.sh) exits 0; the tree it writes under
docs/ is outside this model.  Follows the script line by line: dirty
tree check; create the tracking branch at the base's first commit when
absent, else check it out and take its tip; select the next base commit
(the first one, or the first commit after the tip's first parent);
exit 0 with a message when none is left; on generation failure exit 1;
otherwise `git commit-tree` a commit whose parents are the selected base
commit and, when present, the previous tip, and move the ref to it.
(When the base branch is empty, or the tip's first parent cannot be
resolved, the underlying git commands fail and the script's behaviour
degenerates; the model returns the no-commit outcomes for those states,
which no claim exercises.) -/
def runDriver (gen : Bool) (s : GitState) : DriverResult :=
  if s.dirty then
    ⟨s, 1, false, none⟩
  else
    let init := s.tracking.isNone
    let s1 := if init then { s with tracking := s.base.head? } else s
    let lastGen : Option Nat := if init then none else s.tracking
    let start : Option Nat :=
      match lastGen with
      | none => s1.base.head?
      | some g => (firstParent s1 g).bind (fun b => nextAfter b s1.base)
    match start with
    | none => ⟨s1, 0, true, none⟩
    | some b =>
      if gen then
        let g := s1.nextId
        let ps := match lastGen with
          | some lg => [b, lg]
          | none => [b]
        ⟨{ s1 with commits := (g, ps) :: s1.commits,
                   tracking := some g, nextId := g + 1 }, 0, false, some g⟩
      else
        ⟨s1, 1, false, none⟩

/-! ### Prompt Invoker (gemini.js) -/

/-- A parsed Configuration document.  `generationConfig` is an opaque
options bag passed through to the API; only its presence matters here,
so it is kept as an opaque string. -/
structure GConfig where
  model : Option String
  generationConfig : Option String
  systemInstruction : Option String
deriving DecidableEq

/-- JS falsiness of a possibly-absent string value, as tested by
`!config.model`: absent, or present but the empty string. -/
def jsFalsyStr : Option String → Bool
  | none => true
  | some s => s = ""

/-- Whitespace for the purposes of the JS `trim` method (the common
ASCII whitespace characters; `trim` also strips rarer Unicode space
characters, which no claim involves). -/
def isWhitespaceChar (c : Char) : Bool :=
  c = ' ' ∨ c = '\t' ∨ c = '\n' ∨ c = '\r'

/-- Model of the JS string method `trim()`: strip leading and trailing
whitespace. -/
def jsTrim (s : String) : String :=
  String.mk (((s.data.dropWhile isWhitespaceChar).reverse.dropWhile isWhitespaceChar).reverse)

/-- Observable outcome of one Prompt Invoker run: exit code, whether the
GoogleGenerativeAI client was constructed, the messages handed to
`sendMessage`, the text printed on stdout, and the diagnostics printed
on stderr. -/
structure InvokerResult where
  exitCode : Nat
  clientConstructed : Bool
  messagesSent : List String
  stdoutText : Option String
  stderrLines : List String
deriving DecidableEq

/-- The `run()` function of gemini.js as a function of its inputs: the
command-line arguments, the parsed configuration (none models a file
read or YAML parse failure), the GEMINI_API_KEY environment variable,
and the raw stdin contents.  `api` models the external generative API
as a function from the sent message to the response text.  The checks
appear in source order: argument count, config load, `model`,
`generationConfig`, credential, then the trimmed stdin non-emptiness
check, then the single `sendMessage` call.  (On success the full
response object is also echoed to stderr; that echo is external data
and is not tracked.) -/
def runInvoker (api : String → String) (args : List String)
    (configDoc : Option GConfig) (apiKey : Option String)
    (stdinData : String) : InvokerResult :=
  if args.length ≠ 1 then
    ⟨1, false, [], none, ["Usage: node script.js <config-file.yaml>"]⟩
  else
    match configDoc with
    | none => ⟨1, false, [], none, ["Error parsing YAML configuration."]⟩
    | some config =>
      if jsFalsyStr config.model then
        ⟨1, false, [], none, ["Configuration file must include a \x27model\x27 property."]⟩
      else if config.generationConfig.isNone then
        ⟨1, false, [], none, ["Configuration file must include a \x27generationConfig\x27 property."]⟩
      else if jsFalsyStr apiKey then
        ⟨1, false, [], none, ["Environment variable GEMINI_API_KEY is not set."]⟩
      else
        let userInput := jsTrim stdinData
        if userInput = "" then
          ⟨1, true, [], none, ["No input received from stdin."]⟩
        else
          ⟨0, true, [userInput], some (api userInput), []⟩

/-! ### Helper lemmas -/

theorem renderTail_append (l t : List String) :
    (renderTail (l ++ t)).data = (renderTail l).data ++ (renderTail t).data := by
  induction l with
  | nil => simp [renderTail]
  | cons c l' ih => simp [renderTail, String.data_append, ih]

/-- Componentwise containment implies the string test of write-files.js:
if the working directory's components lead the resolved path's, then the
rendered working directory string leads the rendered path string. -/
theorem renderPath_inside (cwd p : List String) (h : insideDir cwd p = true) :
    jsStartsWith (renderPath p) (renderPath cwd) = true := by
  unfold insideDir at h
  unfold jsStartsWith
  simp only [decide_eq_true_eq] at h ⊢
  obtain ⟨t, rfl⟩ := h
  cases cwd with
  | nil =>
    cases t with
    | nil => simp [renderPath]
    | cons c r =>
      refine ⟨(c ++ renderTail r).data, ?_⟩
      simp [renderPath, renderTail, String.data_append]
  | cons c cwd' =>
    have hne : (c :: cwd') ++ t ≠ [] := by simp
    simp only [renderPath, if_neg (List.cons_ne_nil c cwd'), if_neg hne]
    exact ⟨(renderTail t).data, (renderTail_append (c :: cwd') t).symm⟩

/-- forEach composition: a batch whose first part runs without error
continues into the second part on the accumulated filesystem. -/
theorem runEntries_append_ok (cwd : List String) (l1 l2 : List Entry)
    (fs fs1 : FS) (logs : List String)
    (h : runEntries cwd l1 fs = ⟨fs1, logs, none⟩) :
    runEntries cwd (l1 ++ l2) fs =
      ⟨(runEntries cwd l2 fs1).fs, logs ++ (runEntries cwd l2 fs1).log,
       (runEntries cwd l2 fs1).err⟩ := by
  induction l1 generalizing fs logs with
  | nil =>
    simp only [runEntries, WriterOut.mk.injEq] at h
    obtain ⟨rfl, rfl, -⟩ := h
    simp
  | cons e l1' ih =>
    rcases hse : processEntry cwd fs e with ⟨fsa, logsa, erra⟩
    cases erra with
    | some m =>
      simp only [runEntries, hse, WriterOut.mk.injEq] at h
      exact absurd h.2.2 (by simp)
    | none =>
      rcases hr : runEntries cwd l1' fsa with ⟨fsb, logsb, errb⟩
      simp only [runEntries, hse, hr, WriterOut.mk.injEq] at h
      obtain ⟨rfl, rfl, h3⟩ := h
      subst h3
      simp only [List.cons_append, runEntries, hse, List.append_eq]
      rw [ih fsa logsb hr]
      simp

/-! ### Claims about the File Writer -/

/-- C2 (amended): the containment check write-files.js actually performs
is the literal string test `filePath.startsWith(currentDir)` on resolved
paths.  When an entry fails that test, the writer raises the path-escape
error naming the filename, the process exits 1, and nothing is written
or deleted for that entry or any later one; conversely every entry whose
resolved path lies inside the working directory passes the test, so no
inside entry ever raises this error.  (The string test is weaker than
genuine containment: see the counterexample for an outside path that
passes it.) -/
theorem writer_path_check_amended (cwd : List String) (fs : FS) (e : Entry)
    (rest : List Entry) :
    (jsStartsWith (renderPath (resolvePath cwd e.filename)) (renderPath cwd) = false →
      runWriter cwd (e :: rest) fs = ⟨fs, [], some (escapeMsg e.filename), 1⟩)
    ∧ (insideDir cwd (resolvePath cwd e.filename) = true →
      jsStartsWith (renderPath (resolvePath cwd e.filename)) (renderPath cwd) = true) := by
  constructor
  · intro hp
    simp [runWriter, runEntries, processEntry, hp]
  · exact renderPath_inside cwd _

/-- Witness for the amended C2: the entry `../etc` under working
directory `/w` resolves to `/etc`, fails the string test, and the batch
aborts with the escape error and exit code 1, writing nothing. -/
theorem writer_path_check_amended_witness :
    runWriter ["w"] [⟨"../etc", some "x"⟩] ⟨[], []⟩ =
      ⟨⟨[], []⟩, [], some (escapeMsg "../etc"), 1⟩ :=
  (writer_path_check_amended ["w"] ⟨[], []⟩ ⟨"../etc", some "x"⟩ []).1 (by decide)

/-- C2 is false as stated: with working directory `/home/u/proj`, the
entry `../project/x` resolves to `/home/u/project/x`, strictly outside
the working directory, yet the writer raises no error, writes the file,
logs it, and exits 0. -/
theorem writer_path_check_counterexample :
    insideDir ["home", "u", "proj"] (resolvePath ["home", "u", "proj"] "../project/x") = false
    ∧ runWriter ["home", "u", "proj"] [⟨"../project/x", some "hi"⟩] ⟨[], []⟩ =
        ⟨⟨[(["home", "u", "project", "x"], "hi")],
          [["home"], ["home", "u"], ["home", "u", "project"]]⟩,
         ["Wrote file: ../project/x"], none, 0⟩ := by decide

/-- C3: a File Change Set entry whose resolved path is strictly outside
the working directory is nevertheless accepted and written, because the
containment test is a plain string comparison with no trailing path
separator: working directory `/home/u/proj`, filename `../project/x`,
resolved path `/home/u/project/x`. -/
theorem writer_sibling_escape_accepted :
    insideDir ["home", "u", "proj"] (resolvePath ["home", "u", "proj"] "../project/x") = false
    ∧ jsStartsWith (renderPath (resolvePath ["home", "u", "proj"] "../project/x"))
        (renderPath ["home", "u", "proj"]) = true
    ∧ (runWriter ["home", "u", "proj"] [⟨"../project/x", some "data"⟩] ⟨[], []⟩).err = none
    ∧ (runWriter ["home", "u", "proj"] [⟨"../project/x", some "data"⟩] ⟨[], []⟩).exitCode = 0
    ∧ (runWriter ["home", "u", "proj"] [⟨"../project/x", some "data"⟩] ⟨[], []⟩).fs.files =
        [(["home", "u", "project", "x"], "data")]
    ∧ (runWriter ["home", "u", "proj"] [⟨"../project/x", some "data"⟩] ⟨[], []⟩).log =
        ["Wrote file: ../project/x"] := by decide

/-- C6: an entry with empty `new_content` deletes the target file when
it exists, logging exactly one deletion line, and does nothing when it
does not exist; in both cases no error is raised and processing
continues with the remaining entries. -/
theorem writer_empty_content_delete (cwd : List String) (fs : FS)
    (e : Entry) (rest : List Entry)
    (hc : e.new_content = some "")
    (hp : jsStartsWith (renderPath (resolvePath cwd e.filename)) (renderPath cwd) = true) :
    (fsExists fs (resolvePath cwd e.filename) = true →
      runEntries cwd (e :: rest) fs =
        ⟨(runEntries cwd rest (fsDelete fs (resolvePath cwd e.filename))).fs,
         ("Deleted empty file: " ++ e.filename) ::
           (runEntries cwd rest (fsDelete fs (resolvePath cwd e.filename))).log,
         (runEntries cwd rest (fsDelete fs (resolvePath cwd e.filename))).err⟩)
    ∧ (fsExists fs (resolvePath cwd e.filename) = false →
      runEntries cwd (e :: rest) fs = runEntries cwd rest fs) := by
  constructor <;> intro hex <;> simp [runEntries, processEntry, hp, hc, hex]

/-- Witness for C6: deleting the existing file `a.md` under `/w`. -/
theorem writer_empty_content_delete_witness :
    runEntries ["w"] [⟨"a.md", some ""⟩] ⟨[(["w", "a.md"], "old")], []⟩ =
      ⟨⟨[], []⟩, ["Deleted empty file: a.md"], none⟩ :=
  (((writer_empty_content_delete ["w"] ⟨[(["w", "a.md"], "old")], []⟩ ⟨"a.md", some ""⟩ []
      rfl (by decide)).1) (by decide)).trans (by decide)

/-- C10: an entry whose `new_content` is absent or not a string is not
treated as a delete: the writer takes the write branch, creates the
missing parent directories, then fails at `fs.writeFileSync`, the batch
aborts with exit code 1, and the files written by earlier entries are
left in place (the final file table is exactly the one accumulated
before the failing entry). -/
theorem writer_nonstring_content_aborts (cwd : List String) (fs fs1 : FS)
    (prev : List Entry) (e : Entry) (rest : List Entry) (logs : List String)
    (hc : e.new_content = none)
    (hp : jsStartsWith (renderPath (resolvePath cwd e.filename)) (renderPath cwd) = true)
    (hprev : runEntries cwd prev fs = ⟨fs1, logs, none⟩) :
    runWriter cwd (prev ++ e :: rest) fs =
      ⟨fsMkdirs fs1 (resolvePath cwd e.filename).dropLast, logs, some writeTypeErrMsg, 1⟩
    ∧ (fsMkdirs fs1 (resolvePath cwd e.filename).dropLast).files = fs1.files := by
  refine ⟨?_, rfl⟩
  have hstep : runEntries cwd (e :: rest) fs1 =
      ⟨fsMkdirs fs1 (resolvePath cwd e.filename).dropLast, [], some writeTypeErrMsg⟩ := by
    simp [runEntries, processEntry, hp, hc]
  simp only [runWriter, runEntries_append_ok cwd prev (e :: rest) fs fs1 logs hprev, hstep]
  simp

/-- Witness for C10: after `a` is written under `/w`, the entry `b`
with no string content aborts the batch with exit 1, leaving `a`. -/
theorem writer_nonstring_content_aborts_witness :
    runWriter ["w"] ([⟨"a", some "x"⟩] ++ [⟨"b", none⟩]) ⟨[], []⟩ =
      ⟨fsMkdirs ⟨[(["w", "a"], "x")], [["w"]]⟩ ["w"], ["Wrote file: a"], some writeTypeErrMsg, 1⟩ :=
  (writer_nonstring_content_aborts ["w"] ⟨[], []⟩ ⟨[(["w", "a"], "x")], [["w"]]⟩
      [⟨"a", some "x"⟩] ⟨"b", none⟩ [] ["Wrote file: a"] rfl (by decide) (by decide)).1

/-! ### Claims about the Commit Replay Driver -/

/-- C1: from a clean tree, a base branch with three distinct commits
c1, c2, c3 (oldest first) and no tracking branch, three successive
driver runs create generated commits n (parents exactly [c1]),
n+1 (parents exactly [c2, n]) and n+2 (parents exactly [c3, n+1]),
each run exiting 0 and advancing the tracking ref, and a fourth run
makes no commit, prints the no-new-commits message, exits 0 and leaves
the state unchanged. -/
theorem driver_three_runs (c1 c2 c3 n : Nat) (cs : List (Nat × List Nat))
    (h12 : c1 ≠ c2) (h13 : c1 ≠ c3) (h23 : c2 ≠ c3) :
    runDriver true ⟨[c1, c2, c3], cs, none, false, n⟩ =
      ⟨⟨[c1, c2, c3], (n, [c1]) :: cs, some n, false, n + 1⟩, 0, false, some n⟩
    ∧ runDriver true ⟨[c1, c2, c3], (n, [c1]) :: cs, some n, false, n + 1⟩ =
      ⟨⟨[c1, c2, c3], (n + 1, [c2, n]) :: (n, [c1]) :: cs, some (n + 1), false, n + 2⟩,
        0, false, some (n + 1)⟩
    ∧ runDriver true
        ⟨[c1, c2, c3], (n + 1, [c2, n]) :: (n, [c1]) :: cs, some (n + 1), false, n + 2⟩ =
      ⟨⟨[c1, c2, c3], (n + 2, [c3, n + 1]) :: (n + 1, [c2, n]) :: (n, [c1]) :: cs,
          some (n + 2), false, n + 3⟩, 0, false, some (n + 2)⟩
    ∧ runDriver true
        ⟨[c1, c2, c3], (n + 2, [c3, n + 1]) :: (n + 1, [c2, n]) :: (n, [c1]) :: cs,
          some (n + 2), false, n + 3⟩ =
      ⟨⟨[c1, c2, c3], (n + 2, [c3, n + 1]) :: (n + 1, [c2, n]) :: (n, [c1]) :: cs,
          some (n + 2), false, n + 3⟩, 0, true, none⟩ := by
  refine ⟨rfl, ?_, ?_, ?_⟩
  · simp [runDriver, firstParent, nextAfter, List.lookup]
  · simp [runDriver, firstParent, nextAfter, List.lookup, h12]
  · simp [runDriver, firstParent, nextAfter, List.lookup, h13, h23]

/-- Witness for C1 at base commits 1, 2, 3 and first generated id 10. -/
theorem driver_three_runs_witness :
    runDriver true ⟨[1, 2, 3], [], none, false, 10⟩ =
      ⟨⟨[1, 2, 3], [(10, [1])], some 10, false, 11⟩, 0, false, some 10⟩
    ∧ runDriver true ⟨[1, 2, 3], [(10, [1])], some 10, false, 11⟩ =
      ⟨⟨[1, 2, 3], [(11, [2, 10]), (10, [1])], some 11, false, 12⟩, 0, false, some 11⟩
    ∧ runDriver true ⟨[1, 2, 3], [(11, [2, 10]), (10, [1])], some 11, false, 12⟩ =
      ⟨⟨[1, 2, 3], [(12, [3, 11]), (11, [2, 10]), (10, [1])], some 12, false, 13⟩,
        0, false, some 12⟩
    ∧ runDriver true ⟨[1, 2, 3], [(12, [3, 11]), (11, [2, 10]), (10, [1])], some 12, false, 13⟩ =
      ⟨⟨[1, 2, 3], [(12, [3, 11]), (11, [2, 10]), (10, [1])], some 12, false, 13⟩,
        0, true, none⟩ :=
  driver_three_runs 1 2 3 10 [] (by decide) (by decide) (by decide)

/-- C7 is false as stated: after one successful run on a base branch
with a backlog (two commits, none processed yet), a second immediate run
with no new upstream commits is not a no-op — it creates another commit
and moves the tracking ref. -/
theorem driver_second_run_counterexample :
    (runDriver true ⟨[1, 2], [], none, false, 10⟩).exitCode = 0
    ∧ (runDriver true ⟨[1, 2], [], none, false, 10⟩).madeCommit = some 10
    ∧ (runDriver true ⟨[1, 2], [], none, false, 10⟩).state.tracking = some 10
    ∧ (runDriver true (runDriver true ⟨[1, 2], [], none, false, 10⟩).state).madeCommit = some 11
    ∧ (runDriver true (runDriver true ⟨[1, 2], [], none, false, 10⟩).state).noopMsg = false
    ∧ (runDriver true (runDriver true ⟨[1, 2], [], none, false, 10⟩).state).state.tracking =
        some 11 := by decide

/-- C7 (amended): a driver run is a no-op exactly in the caught-up
state: with a clean tree and a tracking branch whose tip's first parent
is a base commit with no successor on the base branch — as after a
successful run that processed the base tip, with no commits added in
between — the run exits 0, prints the no-new-commits message, creates
no commit, and leaves the whole git state, tracking ref included,
unchanged. -/
theorem driver_caught_up_noop (gen : Bool) (t : GitState) (g b : Nat)
    (hd : t.dirty = false) (ht : t.tracking = some g)
    (hp : firstParent t g = some b) (hn : nextAfter b t.base = none) :
    runDriver gen t = ⟨t, 0, true, none⟩ := by
  simp [runDriver, hd, ht, hp, hn]

/-- Witness for the amended C7: the state after a run that processed the
single base commit 1 into generated commit 5. -/
theorem driver_caught_up_noop_witness :
    runDriver true ⟨[1], [(5, [1])], some 5, false, 6⟩ =
      ⟨⟨[1], [(5, [1])], some 5, false, 6⟩, 0, true, none⟩ :=
  driver_caught_up_noop true ⟨[1], [(5, [1])], some 5, false, 6⟩ 5 1
    rfl rfl (by decide) (by decide)

/-- C8: with uncommitted changes in the working tree the driver exits 1
immediately: no branch is created or moved, no commit is made, and the
git state is returned exactly as it was. -/
theorem driver_dirty_tree_aborts (gen : Bool) (s : GitState) (h : s.dirty = true) :
    runDriver gen s = ⟨s, 1, false, none⟩ := by
  simp [runDriver, h]

/-- Witness for C8: a dirty tree with a pending base commit. -/
theorem driver_dirty_tree_aborts_witness :
    runDriver true ⟨[1], [], none, true, 5⟩ =
      ⟨⟨[1], [], none, true, 5⟩, 1, false, none⟩ :=
  driver_dirty_tree_aborts true ⟨[1], [], none, true, 5⟩ rfl

/-! ### Claims about the Prompt Invoker -/

/-- C4: for a Configuration document that lacks the `model` field or
lacks the `generationConfig` field, the Prompt Invoker prints a
diagnostic and exits non-zero without constructing the API client and
without sending any message. -/
theorem invoker_missing_config_rejected (api : String → String) (p : String)
    (cfg : GConfig) (key : Option String) (stdinData : String)
    (h : cfg.model = none ∨ cfg.generationConfig = none) :
    (runInvoker api [p] (some cfg) key stdinData).exitCode = 1
    ∧ (runInvoker api [p] (some cfg) key stdinData).clientConstructed = false
    ∧ (runInvoker api [p] (some cfg) key stdinData).messagesSent = []
    ∧ (runInvoker api [p] (some cfg) key stdinData).stderrLines ≠ [] := by
  by_cases hm : jsFalsyStr cfg.model = true
  · simp [runInvoker, hm]
  · rcases h with h | h
    · rw [h] at hm
      simp [jsFalsyStr] at hm
    · simp [runInvoker, hm, h]

/-- Witness for C4: a configuration with no `model` field. -/
theorem invoker_missing_config_rejected_witness :
    (runInvoker (fun s => s) ["cfg.yaml"] (some ⟨none, some "g", none⟩) none "hi").exitCode = 1
    ∧ (runInvoker (fun s => s) ["cfg.yaml"] (some ⟨none, some "g", none⟩) none "hi").clientConstructed
        = false
    ∧ (runInvoker (fun s => s) ["cfg.yaml"] (some ⟨none, some "g", none⟩) none "hi").messagesSent
        = []
    ∧ (runInvoker (fun s => s) ["cfg.yaml"] (some ⟨none, some "g", none⟩) none "hi").stderrLines
        ≠ [] :=
  invoker_missing_config_rejected (fun s => s) "cfg.yaml" ⟨none, some "g", none⟩ none "hi"
    (Or.inl rfl)

/-- C5: a prompt payload that is empty or all-whitespace makes the
Prompt Invoker exit non-zero with no message ever sent to the API and
no response text on stdout, whatever the rest of the inputs are. -/
theorem invoker_empty_input_rejected (api : String → String) (args : List String)
    (configDoc : Option GConfig) (key : Option String) (stdinData : String)
    (h : jsTrim stdinData = "") :
    (runInvoker api args configDoc key stdinData).exitCode = 1
    ∧ (runInvoker api args configDoc key stdinData).messagesSent = []
    ∧ (runInvoker api args configDoc key stdinData).stdoutText = none := by
  by_cases ha : args.length ≠ 1
  · simp [runInvoker, ha]
  · cases configDoc with
    | none => simp [runInvoker, ha]
    | some cfg =>
      by_cases hm : jsFalsyStr cfg.model = true
      · simp [runInvoker, ha, hm]
      · by_cases hg : cfg.generationConfig.isNone = true
        · simp [runInvoker, ha, hm, hg]
        · by_cases hk : jsFalsyStr key = true
          · simp [runInvoker, ha, hm, hg, hk]
          · simp [runInvoker, ha, hm, hg, hk, h]

/-- Witness for C5: whitespace-only stdin with an otherwise valid
invocation. -/
theorem invoker_empty_input_rejected_witness :
    (runInvoker (fun s => s) ["c"] (some ⟨some "m", some "g", none⟩) (some "k") " \n ").exitCode = 1
    ∧ (runInvoker (fun s => s) ["c"] (some ⟨some "m", some "g", none⟩) (some "k") " \n ").messagesSent
        = []
    ∧ (runInvoker (fun s => s) ["c"] (some ⟨some "m", some "g", none⟩) (some "k") " \n ").stdoutText
        = none :=
  invoker_empty_input_rejected (fun s => s) ["c"] (some ⟨some "m", some "g", none⟩)
    (some "k") " \n " (by decide)

/-- C9 is false as stated: a successful invocation whose stdin payload
carries surrounding whitespace sends the trimmed text, not the payload
read from standard input. -/
theorem invoker_trim_counterexample :
    (runInvoker (fun s => s) ["c"] (some ⟨some "m", some "g", none⟩) (some "k") " hi ").exitCode = 0
    ∧ (runInvoker (fun s => s) ["c"] (some ⟨some "m", some "g", none⟩) (some "k") " hi ").messagesSent
        = ["hi"]
    ∧ "hi" ≠ " hi " := by decide

/-- C9 (amended): every successful invocation sends exactly one message
to the API, namely the stdin contents with leading and trailing
whitespace trimmed, with no further validation or transformation, and
prints the API's response for exactly that message. -/
theorem invoker_sends_trimmed_once (api : String → String) (args : List String)
    (configDoc : Option GConfig) (key : Option String) (stdinData : String)
    (h : (runInvoker api args configDoc key stdinData).exitCode = 0) :
    (runInvoker api args configDoc key stdinData).messagesSent = [jsTrim stdinData]
    ∧ (runInvoker api args configDoc key stdinData).stdoutText
        = some (api (jsTrim stdinData)) := by
  by_cases ha : args.length ≠ 1
  · simp [runInvoker, ha] at h
  · cases configDoc with
    | none => simp [runInvoker, ha] at h
    | some cfg =>
      by_cases hm : jsFalsyStr cfg.model = true
      · simp [runInvoker, ha, hm] at h
      · by_cases hg : cfg.generationConfig.isNone = true
        · simp [runInvoker, ha, hm, hg] at h
        · by_cases hk : jsFalsyStr key = true
          · simp [runInvoker, ha, hm, hg, hk] at h
          · by_cases ht : jsTrim stdinData = ""
            · simp [runInvoker, ha, hm, hg, hk, ht] at h
            · simp [runInvoker, ha, hm, hg, hk, ht]

/-- Witness for the amended C9: a successful invocation sending `hi`. -/
theorem invoker_sends_trimmed_once_witness :
    (runInvoker (fun s => s ++ "!") ["c"] (some ⟨some "m", some "g", none⟩) (some "k") "hi").messagesSent
        = [jsTrim "hi"]
    ∧ (runInvoker (fun s => s ++ "!") ["c"] (some ⟨some "m", some "g", none⟩) (some "k") "hi").stdoutText
        = some ((fun s => s ++ "!") (jsTrim "hi")) :=
  invoker_sends_trimmed_once (fun s => s ++ "!") ["c"] (some ⟨some "m", some "g", none⟩)
    (some "k") "hi" (by decide)
